import Mathlib

/-!
Verification of the volunteer REST API (`api.py`) and the Google Calendar
adapter (`google_calendar_tools.py`) of the livekit-voice-agent repository.

The handlers are embedded as pure Lean functions over an explicit store,
modelled as a `List Volunteer` in natural (insertion) order — the order in
which an un-`ORDER BY`ed `SELECT` scans the table.  SQL `NULL` is rendered
as `Option`, `NOW()` as an explicit `now : Nat` parameter, and the HTTP
outcome of a handler as `Except Nat α` whose error component is the HTTP
status code raised via `HTTPException`.
-/

namespace VolunteerApi

/-- A row of the `volunteers` table exactly as the handlers in `api.py`
read and write it (`SELECT *` column set).  Nullable columns are `Option`;
`created_at` and `updated_at` are timestamps. -/
structure Volunteer where
  id : Nat
  name : String
  age : Nat
  location : String
  phone : Option String
  email : Option String
  skills : String
  available : Bool
  years_experience : Nat
  languages : Option String
  transportation : Option String
  background_check : Bool
  emergency_contact : Option String
  notes : Option String
  created_at : Nat
  updated_at : Nat
deriving Repr, DecidableEq

/-- Whether some suffix of the second argument satisfies `f`: the search
a `%` wildcard performs before handing the rest of the pattern on. -/
def suffixAny (f : List Char → Bool) : List Char → Bool
  | [] => f []
  | d :: t => f (d :: t) || suffixAny f t

/-- SQL `LIKE` pattern matching over characters: `%` matches any
(possibly empty) sequence, `_` matches exactly one character, any other
character matches itself.  The default Postgres escape character `\` is
not modelled (a pattern containing `\` is treated literally), and no
caller in the repository escapes its filter values. -/
def likeMatch : List Char → List Char → Bool
  | [], s => s.isEmpty
  | c :: ps, s =>
    if c = '%' then suffixAny (likeMatch ps) s
    else
      match s with
      | [] => false
      | d :: t => (if c = '_' then true else c == d) && likeMatch ps t

/-- Whether `pat` occurs as a contiguous segment of `hay`. -/
def occursIn (pat : List Char) : List Char → Bool
  | [] => pat.isEmpty
  | c :: t => pat.isPrefixOf (c :: t) || occursIn pat t

/-- The semantics of the SQL predicate `field ILIKE '%pat%'`, with `pat`
the raw query parameter: the handlers interpolate it into the pattern
unescaped (api.py 154, `'%' + skill + '%'` as the bound parameter), so
`%` and `_` inside the filter value act as wildcards.  `ILIKE` compares
case-insensitively, modelled by lowering both sides. -/
def ilikeContains (field pat : String) : Bool :=
  likeMatch ('%' :: (pat.toList.map Char.toLower ++ ['%']))
    (field.toList.map Char.toLower)

/-- Case-insensitive substring containment — the specification's reading
of the textual filters, coinciding with `ilikeContains` exactly for
wildcard-free filter values. -/
def substrContains (field pat : String) : Bool :=
  occursIn (pat.toList.map Char.toLower) (field.toList.map Char.toLower)

/-- `ILIKE` on a nullable column: SQL three-valued logic makes
`NULL ILIKE p` non-true, so a row with a `NULL` field never matches. -/
def ilikeContainsOpt (field : Option String) (pat : String) : Bool :=
  match field with
  | none => false
  | some s => ilikeContains s pat

/-- Substring containment on a nullable column: a null field contains
nothing, mirroring the `NULL ILIKE p` behaviour. -/
def substrContainsOpt (field : Option String) (pat : String) : Bool :=
  match field with
  | none => false
  | some s => substrContains s pat

/-- A character with no special meaning in a `LIKE` pattern (neither a
wildcard nor the Postgres escape character). -/
def isLiteralChar (c : Char) : Bool :=
  !(c == '%') && !(c == '_') && !(c == '\\')

/-- A pattern that `LIKE` reads entirely literally. -/
def noWildcards (pat : List Char) : Bool :=
  pat.all isLiteralChar

/-- An optional filter value free of `LIKE` metacharacters (after the
case-lowering `ILIKE` applies). -/
def wildcardFree (filt : Option String) : Bool :=
  match filt with
  | none => true
  | some s => noWildcards (s.toList.map Char.toLower)

/-- One `WHERE` condition appended by `get_volunteers` (api.py 152-166). -/
inductive Cond where
  | skillsLike (pat : String)
  | locationLike (pat : String)
  | availEq (b : Bool)
  | languagesLike (pat : String)
deriving Repr, DecidableEq

/-- Python truthiness of an optional string parameter (`if skill:`):
the filter fires only when it is present and nonempty. -/
def truthy (s : Option String) : Bool :=
  match s with
  | none => false
  | some s => !(s == "")

/-- The `WHERE` clause assembled by `get_volunteers` (api.py 149-167):
it starts from the tautology `1=1` and appends one condition per
truthy/present filter, in source order.  Note Python tests the three
textual filters by truthiness (`if skill:`) but availability by
`is not None`. -/
def buildConds (skill location : Option String) (available : Option Bool)
    (language : Option String) : List Cond :=
  (if truthy skill then [Cond.skillsLike (skill.getD "")] else []) ++
  (if truthy location then [Cond.locationLike (location.getD "")] else []) ++
  (match available with
   | some b => [Cond.availEq b]
   | none => []) ++
  (if truthy language then [Cond.languagesLike (language.getD "")] else [])

/-- Evaluation of one condition against a row. -/
def evalCond (c : Cond) (v : Volunteer) : Bool :=
  match c with
  | .skillsLike pat => ilikeContains v.skills pat
  | .locationLike pat => ilikeContains v.location pat
  | .availEq b => v.available == b
  | .languagesLike pat => ilikeContainsOpt v.languages pat

/-- Execution of `SELECT * FROM volunteers WHERE <conds> LIMIT limit` on a
store in natural order: rows satisfying every condition, capped at
`limit`. -/
def runSelect (store : List Volunteer) (conds : List Cond) (limit : Nat) :
    List Volunteer :=
  (store.filter (fun v => conds.all (fun c => evalCond c v))).take limit

/-- The `GET /api/volunteers` handler (api.py 127-189), the store passed
explicitly.  Returns the `volunteers` list of the JSON payload (the
payload's `count` is its length); the handler never errors on this path,
an empty match set is returned as an empty list with HTTP 200. -/
def get_volunteers (store : List Volunteer) (skill location : Option String)
    (available : Option Bool) (language : Option String)
    (limit : Nat) : List Volunteer :=
  runSelect store (buildConds skill location available language) limit

/-- The signature default of the `limit` query parameter (api.py 133). -/
def defaultLimit : Nat := 100

/-- The handler as invoked with the `limit` query parameter omitted:
FastAPI supplies the signature default. -/
def get_volunteers_nolimit (store : List Volunteer)
    (skill location : Option String) (available : Option Bool)
    (language : Option String) : List Volunteer :=
  get_volunteers store skill location available language defaultLimit

/-! Declarative row predicates for the refinement theorems of claim C1.
The `ILIKE` family states what the handler actually computes — each
present textual filter applied with full `LIKE` pattern semantics — and
the `Substr` family states the claim's words: case-insensitive substring
containment.  The two coincide exactly for wildcard-free filter values.
An empty-string filter value is treated as absent in both, matching the
handler (Python truthiness, `if skill:`). -/

/-- One textual filter against a non-null column, `ILIKE` semantics. -/
def matchesTextFilter (filt : Option String) (field : String) : Bool :=
  match filt with
  | none => true
  | some s => if s == "" then true else ilikeContains field s

/-- One textual filter against a nullable column, `ILIKE` semantics:
a null field never matches. -/
def matchesTextFilterOpt (filt : Option String) (field : Option String) : Bool :=
  match filt with
  | none => true
  | some s => if s == "" then true else ilikeContainsOpt field s

/-- One textual filter against a non-null column, read as the claim
states it: case-insensitive substring containment. -/
def matchesTextFilterSubstr (filt : Option String) (field : String) : Bool :=
  match filt with
  | none => true
  | some s => if s == "" then true else substrContains field s

/-- One textual filter against a nullable column, read as the claim
states it. -/
def matchesTextFilterSubstrOpt (filt : Option String)
    (field : Option String) : Bool :=
  match filt with
  | none => true
  | some s => if s == "" then true else substrContainsOpt field s

/-- The availability filter: exact value equality. -/
def matchesAvailFilter (filt : Option Bool) (field : Bool) : Bool :=
  match filt with
  | none => true
  | some b => field == b

/-- Conjunction of the four optional filters of `GET /api/volunteers`
with the textual ones under `ILIKE` pattern semantics. -/
def volunteerMatches (skill location : Option String) (available : Option Bool)
    (language : Option String) (v : Volunteer) : Bool :=
  matchesTextFilter skill v.skills &&
  matchesTextFilter location v.location &&
  matchesAvailFilter available v.available &&
  matchesTextFilterOpt language v.languages

/-- Conjunction of the four optional filters with the textual ones read
as case-insensitive substring containment — claim C1's original words. -/
def volunteerMatchesSubstr (skill location : Option String)
    (available : Option Bool) (language : Option String)
    (v : Volunteer) : Bool :=
  matchesTextFilterSubstr skill v.skills &&
  matchesTextFilterSubstr location v.location &&
  matchesAvailFilter available v.available &&
  matchesTextFilterSubstrOpt language v.languages

/-- Outcome of a handler call: the HTTP-visible response — `Except` whose
error component is the raised HTTP status code — together with the store
as the handler leaves it. -/
structure ApiResult (α : Type) where
  resp : Except Nat α
  store : List Volunteer
deriving Repr

/-- The `GET /api/volunteers/<id>` handler (api.py 191-217).  A bare
`SELECT` never mutates the store, so only the response is modelled. -/
def get_volunteer (store : List Volunteer) (vid : Nat) : Except Nat Volunteer :=
  match store.find? (fun v => v.id == vid) with
  | none => Except.error 404
  | some v => Except.ok v

/-- A `POST /api/volunteers` request body after Pydantic validation
(`VolunteerCreate`, api.py 29-42): required fields are plain values,
optional ones `Option`. -/
structure VolunteerCreate where
  name : String
  age : Nat
  location : String
  phone : Option String
  email : Option String
  skills : String
  available : Bool
  years_experience : Nat
  languages : Option String
  transportation : Option String
  background_check : Bool
  emergency_contact : Option String
  notes : Option String
deriving Repr, DecidableEq

/-- The row produced by the `INSERT ... NOW(), NOW() RETURNING *` of
`create_volunteer`: server-assigned id, both timestamps set to the
insertion time. -/
def rowOfCreate (c : VolunteerCreate) (newId now : Nat) : Volunteer :=
  { id := newId
    name := c.name
    age := c.age
    location := c.location
    phone := c.phone
    email := c.email
    skills := c.skills
    available := c.available
    years_experience := c.years_experience
    languages := c.languages
    transportation := c.transportation
    background_check := c.background_check
    emergency_contact := c.emergency_contact
    notes := c.notes
    created_at := now
    updated_at := now }

/-- The `POST /api/volunteers` handler (api.py 305-362).  The store
assigns the fresh id `newId` (a sequence value, unique by the primary-key
constraint); the new row is appended and returned. -/
def create_volunteer (store : List Volunteer) (c : VolunteerCreate)
    (newId now : Nat) : ApiResult Volunteer :=
  let v := rowOfCreate c newId now
  ⟨Except.ok v, store ++ [v]⟩

/-- One field of a `PUT` request body as
`volunteer.model_dump` with `exclude_unset` exposes it to the handler:
absent from the JSON (`unset`), supplied as JSON `null`, or supplied with
a value. -/
inductive PatchField (α : Type) where
  | unset : PatchField α
  | null : PatchField α
  | set (a : α) : PatchField α
deriving Repr, DecidableEq

/-- Whether the handler's field loop keeps this field: only fields that
were supplied with a non-null value enter `update_fields`
(api.py 402-405). -/
def PatchField.isSet {α : Type} : PatchField α → Bool
  | .set _ => true
  | _ => false

/-- Value written to a `NOT NULL` column by the dynamic `UPDATE`: kept
fields overwrite, dropped fields leave the stored value. -/
def PatchField.apply {α : Type} : PatchField α → α → α
  | .set a, _ => a
  | _, old => old

/-- Value written to a nullable column: a kept field overwrites with a
non-null value, dropped fields leave the stored value (so this endpoint
never writes `NULL`). -/
def PatchField.applyOpt {α : Type} : PatchField α → Option α → Option α
  | .set a, _ => some a
  | _, old => old

/-- A `PUT /api/volunteers/<id>` request body after Pydantic validation
(`VolunteerUpdate`, api.py 44-57), field by field. -/
structure VolunteerUpdate where
  name : PatchField String
  age : PatchField Nat
  location : PatchField String
  phone : PatchField String
  email : PatchField String
  skills : PatchField String
  available : PatchField Bool
  years_experience : PatchField Nat
  languages : PatchField String
  transportation : PatchField String
  background_check : PatchField Bool
  emergency_contact : PatchField String
  notes : PatchField String
deriving Repr, DecidableEq

/-- Whether `update_fields` is nonempty after the loop of api.py 399-405:
some field was supplied with a non-null value. -/
def hasUpdateFields (p : VolunteerUpdate) : Bool :=
  p.name.isSet || p.age.isSet || p.location.isSet || p.phone.isSet ||
  p.email.isSet || p.skills.isSet || p.available.isSet ||
  p.years_experience.isSet || p.languages.isSet || p.transportation.isSet ||
  p.background_check.isSet || p.emergency_contact.isSet || p.notes.isSet

/-- The row produced by the dynamic
`UPDATE ... SET <kept fields>, updated_at = NOW()` statement for one
matching row (api.py 412-423): kept fields overwritten, everything else
untouched, `updated_at` refreshed; `id` and `created_at` are never in the
`SET` list. -/
def applyPatch (p : VolunteerUpdate) (now : Nat) (v : Volunteer) : Volunteer :=
  { v with
    name := p.name.apply v.name
    age := p.age.apply v.age
    location := p.location.apply v.location
    phone := p.phone.applyOpt v.phone
    email := p.email.applyOpt v.email
    skills := p.skills.apply v.skills
    available := p.available.apply v.available
    years_experience := p.years_experience.apply v.years_experience
    languages := p.languages.applyOpt v.languages
    transportation := p.transportation.applyOpt v.transportation
    background_check := p.background_check.apply v.background_check
    emergency_contact := p.emergency_contact.applyOpt v.emergency_contact
    notes := p.notes.applyOpt v.notes
    updated_at := now }

/-- The `PUT /api/volunteers/<id>` handler (api.py 364-436): existence
check first (404), then rejection of an empty `update_fields` list (400),
then the dynamic `UPDATE ... WHERE id = <vid> RETURNING *` whose first
returned row is the response.  The 500 arm is unreachable: the update
preserves ids, so the row found by the existence check is still found. -/
def update_volunteer (store : List Volunteer) (vid : Nat)
    (p : VolunteerUpdate) (now : Nat) : ApiResult Volunteer :=
  if (store.find? (fun v => v.id == vid)).isNone then
    ⟨Except.error 404, store⟩
  else if !hasUpdateFields p then
    ⟨Except.error 400, store⟩
  else
    let store2 := store.map (fun v => if v.id == vid then applyPatch p now v else v)
    match store2.find? (fun v => v.id == vid) with
    | some v => ⟨Except.ok v, store2⟩
    | none => ⟨Except.error 500, store⟩

/-- The `DELETE /api/volunteers/<id>` handler (api.py 438-472): the row
is selected first and returned as confirmation; the `DELETE` statement
removes every row with that id. -/
def delete_volunteer (store : List Volunteer) (vid : Nat) : ApiResult Volunteer :=
  match store.find? (fun v => v.id == vid) with
  | none => ⟨Except.error 404, store⟩
  | some v => ⟨Except.ok v, store.filter (fun w => !(w.id == vid))⟩

/-- The row rewrite performed by the availability patch:
`SET available = <avail>, updated_at = NOW()`. -/
def setAvail (avail : Bool) (now : Nat) (v : Volunteer) : Volunteer :=
  { v with available := avail, updated_at := now }

/-- The `PATCH /api/volunteers/<id>/availability` handler (api.py
474-514): a single `UPDATE ... SET available, updated_at = NOW()`; when it
returns no row the handler raises 404 and the closed connection rolls the
(empty) transaction back, leaving the store unchanged. -/
def update_volunteer_availability (store : List Volunteer) (vid : Nat)
    (avail : Bool) (now : Nat) : ApiResult Volunteer :=
  let store2 := store.map (fun v =>
    if v.id == vid then setAvail avail now v else v)
  match store2.find? (fun v => v.id == vid) with
  | none => ⟨Except.error 404, store⟩
  | some v => ⟨Except.ok v, store2⟩

/-- Field-wise collapse of `null` to `unset`, used to state claim C10:
the handler cannot distinguish the two. -/
def PatchField.dropNull {α : Type} : PatchField α → PatchField α
  | .null => .unset
  | x => x

/-- A patch with every supplied-as-null field replaced by an absent one. -/
def dropNulls (p : VolunteerUpdate) : VolunteerUpdate :=
  { name := p.name.dropNull
    age := p.age.dropNull
    location := p.location.dropNull
    phone := p.phone.dropNull
    email := p.email.dropNull
    skills := p.skills.dropNull
    available := p.available.dropNull
    years_experience := p.years_experience.dropNull
    languages := p.languages.dropNull
    transportation := p.transportation.dropNull
    background_check := p.background_check.dropNull
    emergency_contact := p.emergency_contact.dropNull
    notes := p.notes.dropNull }

/-! Resource handling of the `GET /api/volunteers` handler, for claim C8.
The handler body is one `try` block with `except HTTPException: raise` and
`except Exception: raise HTTPException(500)` clauses and no `finally`
(api.py 145-189); `conn.close()` appears only on the straight-line path.
The model records, for each combination of I/O outcomes, whether a
connection was acquired and whether it was closed before the handler
returned. -/

/-- What a run of the handler did with its connection. -/
structure ConnTrace where
  acquired : Bool
  released : Bool
deriving Repr, DecidableEq

/-- Control-flow model of `get_volunteers` resource handling:
`connectOk` is whether `get_db_connection` succeeds (it raises
`HTTPException(500)` otherwise, before any connection exists), `queryOk`
whether the cursor and SQL statements run without raising.  On the
exception path the `except Exception` clause re-raises a 500 with the
connection still open. -/
def get_volunteers_conn (connectOk queryOk : Bool) : ConnTrace :=
  if !connectOk then
    ⟨false, false⟩
  else if queryOk then
    ⟨true, true⟩
  else
    ⟨true, false⟩

/-! Model of `GoogleCalendarManager.authenticate`
(google_calendar_tools.py 75-139), for claim C9.  The I/O outcomes the
method consults are gathered in an explicit environment value. -/

/-- State of the cached token file (`google_calendar_token.json`) as the
Google client library reports the loaded credentials: still valid, expired
but carrying a refresh token, or expired without one. -/
inductive TokenState where
  | valid
  | expiredRefresh
  | expiredNoRefresh
deriving Repr, DecidableEq

/-- The environment `authenticate` consults: presence of the OAuth client
credentials file (`gcp-oauth.keys.json`), of the `GOOGLE_CLIENT_ID`,
`GOOGLE_CLIENT_SECRET`, `GOOGLE_PROJECT_ID` and `GOOGLE_REFRESH_TOKEN`
environment variables, the cached token file, and whether a token-refresh
round trip to Google succeeds (a failing refresh raises, landing in the
`except` clause). -/
structure AuthEnv where
  credFileExists : Bool
  envClientId : Bool
  envClientSecret : Bool
  envProjectId : Bool
  tokenFile : Option TokenState
  envRefreshToken : Bool
  refreshOk : Bool
deriving Repr, DecidableEq

/-- Where the credentials that `authenticate` ends up using came from. -/
inductive CredSource where
  | cachedToken
  | refreshedCached
  | envRefreshExchange
deriving Repr, DecidableEq

/-- `GoogleCalendarManager._create_credentials_file_from_env`
(google_calendar_tools.py 40-73): succeeds exactly when all three of
client id, client secret and project id are present in the environment. -/
def create_credentials_file_from_env (e : AuthEnv) : Bool :=
  e.envClientId && e.envClientSecret && e.envProjectId

/-- `GoogleCalendarManager.authenticate` (google_calendar_tools.py
75-139) with I/O outcomes supplied by `AuthEnv`: the returned flag is the
method's boolean result, the second component the source of the
credentials used on success.  Loading a malformed token file and a failing
`build` call are not modelled (both land in the `except` clause and
return `False`, orthogonal to the fallback order under study). -/
def authenticate (e : AuthEnv) : Bool × Option CredSource :=
  if !e.credFileExists && !create_credentials_file_from_env e then
    (false, none)
  else
    match e.tokenFile with
    | some TokenState.valid => (true, some CredSource.cachedToken)
    | some TokenState.expiredRefresh =>
        if e.refreshOk then (true, some CredSource.refreshedCached)
        else (false, none)
    | _ =>
        if e.envRefreshToken then
          if e.envClientId && e.envClientSecret then
            if e.refreshOk then (true, some CredSource.envRefreshExchange)
            else (false, none)
          else (false, none)
        else (false, none)

/-- Success condition of the refresh-token-exchange strategy on its own
terms (google_calendar_tools.py 99-121): `GOOGLE_REFRESH_TOKEN`,
`GOOGLE_CLIENT_ID` and `GOOGLE_CLIENT_SECRET` present and the exchange
round trip succeeding.  Note it does not need `GOOGLE_PROJECT_ID`. -/
def refreshExchangeSucceeds (e : AuthEnv) : Bool :=
  e.envRefreshToken && e.envClientId && e.envClientSecret && e.refreshOk

/-- OAuth client configuration is resolvable: the credentials file exists
or can be created from the environment triple. -/
def clientConfigAvailable (e : AuthEnv) : Bool :=
  e.credFileExists || create_credentials_file_from_env e

/-- The amended resolution chain of claim C9, stated declaratively:
client configuration gates everything; then the first applicable of
cached-token / refresh-of-cached / env-refresh-exchange supplies the
credentials; `none` exactly when no strategy applies or its refresh round
trip fails. -/
def resolveCredChain (e : AuthEnv) : Option CredSource :=
  if !clientConfigAvailable e then none
  else if e.tokenFile == some TokenState.valid then
    some CredSource.cachedToken
  else if e.tokenFile == some TokenState.expiredRefresh then
    if e.refreshOk then some CredSource.refreshedCached else none
  else if refreshExchangeSucceeds e then
    some CredSource.envRefreshExchange
  else none

/-! Concrete values used by witnesses and counterexamples. -/

/-- A concrete stored row (the spec's section 8 scenario volunteer). -/
def vEx : Volunteer :=
  { id := 1
    name := "Test User"
    age := 30
    location := "Accra"
    phone := none
    email := none
    skills := "cooking"
    available := true
    years_experience := 0
    languages := some "English"
    transportation := none
    background_check := false
    emergency_contact := none
    notes := none
    created_at := 5
    updated_at := 5 }

/-- A second concrete row with a different id. -/
def vEx2 : Volunteer :=
  { vEx with id := 2, name := "Ama Mensah", location := "Kumasi",
             skills := "driving", available := false }

/-- The all-absent patch. -/
def emptyPatch : VolunteerUpdate :=
  { name := PatchField.unset
    age := PatchField.unset
    location := PatchField.unset
    phone := PatchField.unset
    email := PatchField.unset
    skills := PatchField.unset
    available := PatchField.unset
    years_experience := PatchField.unset
    languages := PatchField.unset
    transportation := PatchField.unset
    background_check := PatchField.unset
    emergency_contact := PatchField.unset
    notes := PatchField.unset }

/-- A patch that only flips availability. -/
def pEx : VolunteerUpdate :=
  { emptyPatch with available := PatchField.set false }

/-- A patch whose only supplied field is an explicit `null`. -/
def pNull : VolunteerUpdate :=
  { emptyPatch with notes := PatchField.null }

/-- A concrete create request (the spec's section 8 scenario). -/
def cEx : VolunteerCreate :=
  { name := "Test User"
    age := 30
    location := "Accra"
    phone := none
    email := none
    skills := "cooking"
    available := true
    years_experience := 0
    languages := none
    transportation := none
    background_check := false
    emergency_contact := none
    notes := none }

/-- The environment refuting claim C9: no credentials file, client id and
secret and refresh token set, project id missing, refresh working. -/
def envCounter : AuthEnv :=
  { credFileExists := false
    envClientId := true
    envClientSecret := true
    envProjectId := false
    tokenFile := none
    envRefreshToken := true
    refreshOk := true }

/-! Theorems.  Helper lemmas first, then one theorem per claim with its
witnesses and counterexamples. -/

/-- The skills segment of the built clause evaluates to the spec-side
skill filter. -/
theorem skillSeg_all (skill : Option String) (v : Volunteer) :
    ((if truthy skill then [Cond.skillsLike (skill.getD "")] else []).all
      (fun c => evalCond c v)) = matchesTextFilter skill v.skills := by
  rcases skill with _ | s
  · rfl
  · by_cases h : s = ""
    · subst h; simp [truthy, matchesTextFilter]
    · simp [truthy, matchesTextFilter, evalCond, h]

/-- The location segment of the built clause evaluates to the spec-side
location filter. -/
theorem locationSeg_all (location : Option String) (v : Volunteer) :
    ((if truthy location then [Cond.locationLike (location.getD "")] else []).all
      (fun c => evalCond c v)) = matchesTextFilter location v.location := by
  rcases location with _ | s
  · rfl
  · by_cases h : s = ""
    · subst h; simp [truthy, matchesTextFilter]
    · simp [truthy, matchesTextFilter, evalCond, h]

/-- The availability segment of the built clause evaluates to the
spec-side availability filter. -/
theorem availSeg_all (available : Option Bool) (v : Volunteer) :
    ((match available with
      | some b => [Cond.availEq b]
      | none => ([] : List Cond)).all (fun c => evalCond c v)) =
      matchesAvailFilter available v.available := by
  rcases available with _ | b <;> simp [matchesAvailFilter, evalCond]

/-- The languages segment of the built clause evaluates to the spec-side
language filter. -/
theorem languageSeg_all (language : Option String) (v : Volunteer) :
    ((if truthy language then [Cond.languagesLike (language.getD "")] else []).all
      (fun c => evalCond c v)) = matchesTextFilterOpt language v.languages := by
  rcases language with _ | s
  · rfl
  · by_cases h : s = ""
    · subst h; simp [truthy, matchesTextFilterOpt]
    · simp [truthy, matchesTextFilterOpt, evalCond, h]

/-- Evaluating the whole built `WHERE` clause on a row coincides with the
spec-side conjunction of filters. -/
theorem conds_all_eq (skill location : Option String) (available : Option Bool)
    (language : Option String) (v : Volunteer) :
    (buildConds skill location available language).all (fun c => evalCond c v) =
      volunteerMatches skill location available language v := by
  unfold buildConds volunteerMatches
  rw [List.all_append, List.all_append, List.all_append,
      skillSeg_all, locationSeg_all, availSeg_all, languageSeg_all]

/-- A pattern that is one lone `%` wildcard matches every string. -/
theorem likeMatch_percent_only : ∀ s, likeMatch ['%'] s = true := by
  intro s
  induction s with
  | nil => rfl
  | cons d t ih =>
    simp [likeMatch, suffixAny] at ih ⊢
    exact ih

/-- A wildcard-free pattern followed by a lone `%` matches exactly the
strings it is a prefix of. -/
theorem likeMatch_literal_percent (pat : List Char)
    (h : noWildcards pat = true) :
    ∀ s, likeMatch (pat ++ ['%']) s = pat.isPrefixOf s := by
  induction pat with
  | nil =>
    intro s
    simp [List.nil_append]
    exact likeMatch_percent_only s
  | cons c pr ih =>
    have h2 : isLiteralChar c = true ∧ pr.all isLiteralChar = true := by
      simpa [noWildcards] using h
    have hc1 : ¬ c = '%' := fun hh => by subst hh; simp [isLiteralChar] at h2
    have hc2 : ¬ c = '_' := fun hh => by subst hh; simp [isLiteralChar] at h2
    have hpr : noWildcards pr = true := h2.2
    intro s
    have ihs := ih hpr
    cases s with
    | nil =>
      simp only [List.cons_append, likeMatch]
      rw [if_neg hc1]
      simp [List.isPrefixOf]
    | cons d t =>
      simp only [List.cons_append, likeMatch]
      rw [if_neg hc1, if_neg hc2]
      simp [List.isPrefixOf, ihs t]

/-- For a wildcard-free pattern, the `ILIKE '%pat%'` pattern matches
exactly the strings containing the pattern as a contiguous segment. -/
theorem likeMatch_noWild (pat : List Char) (h : noWildcards pat = true) :
    ∀ s, likeMatch ('%' :: (pat ++ ['%'])) s = occursIn pat s := by
  intro s
  induction s with
  | nil =>
    show suffixAny (likeMatch (pat ++ ['%'])) [] = occursIn pat []
    simp only [suffixAny, likeMatch_literal_percent pat h]
    cases pat <;> simp [occursIn, List.isPrefixOf]
  | cons d t ih =>
    show suffixAny (likeMatch (pat ++ ['%'])) (d :: t) = occursIn pat (d :: t)
    simp only [suffixAny, likeMatch_literal_percent pat h]
    have ih2 : suffixAny (likeMatch (pat ++ ['%'])) t = occursIn pat t := ih
    rw [ih2]
    rfl

/-- For a wildcard-free filter value, the handler's `ILIKE` predicate is
exactly case-insensitive substring containment. -/
theorem ilikeContains_noWild (field pat : String)
    (h : noWildcards (pat.toList.map Char.toLower) = true) :
    ilikeContains field pat = substrContains field pat := by
  unfold ilikeContains substrContains
  exact likeMatch_noWild _ h _

/-- The `ILIKE` and substring readings of a textual filter on a non-null
column coincide for wildcard-free filter values. -/
theorem matchesTextFilter_noWild (filt : Option String) (field : String)
    (h : wildcardFree filt = true) :
    matchesTextFilter filt field = matchesTextFilterSubstr filt field := by
  rcases filt with _ | s
  · rfl
  · by_cases hs : s = ""
    · simp [matchesTextFilter, matchesTextFilterSubstr, hs]
    · have hw : noWildcards (s.toList.map Char.toLower) = true := by
        simpa [wildcardFree] using h
      simp [matchesTextFilter, matchesTextFilterSubstr, hs,
        ilikeContains_noWild field s hw]

/-- The `ILIKE` and substring readings of a textual filter on a nullable
column coincide for wildcard-free filter values. -/
theorem matchesTextFilterOpt_noWild (filt : Option String)
    (field : Option String) (h : wildcardFree filt = true) :
    matchesTextFilterOpt filt field = matchesTextFilterSubstrOpt filt field := by
  rcases filt with _ | s
  · rfl
  · by_cases hs : s = ""
    · simp [matchesTextFilterOpt, matchesTextFilterSubstrOpt, hs]
    · rcases field with _ | f
      · simp [matchesTextFilterOpt, matchesTextFilterSubstrOpt, hs,
          ilikeContainsOpt, substrContainsOpt]
      · have hw : noWildcards (s.toList.map Char.toLower) = true := by
          simpa [wildcardFree] using h
        simp [matchesTextFilterOpt, matchesTextFilterSubstrOpt, hs,
          ilikeContainsOpt, substrContainsOpt, ilikeContains_noWild f s hw]

/-- Wildcard-free filters make the handler's row predicate coincide with
the claim's substring-containment predicate. -/
theorem volunteerMatches_noWild (skill location : Option String)
    (available : Option Bool) (language : Option String) (v : Volunteer)
    (h1 : wildcardFree skill = true) (h2 : wildcardFree location = true)
    (h3 : wildcardFree language = true) :
    volunteerMatches skill location available language v =
      volunteerMatchesSubstr skill location available language v := by
  unfold volunteerMatches volunteerMatchesSubstr
  rw [matchesTextFilter_noWild skill v.skills h1,
      matchesTextFilter_noWild location v.location h2,
      matchesTextFilterOpt_noWild language v.languages h3]

/-- Counterexample to claim C1 as stated: the handler interpolates the
raw filter into the `ILIKE` pattern unescaped, so `_` in the filter value
acts as a one-character wildcard.  At skill filter `c_o` the program
returns the row with skills `cooking` (the pattern `%c_o%` matches
`coo`), while case-insensitive substring containment — the claim's
stated semantics — matches nothing. -/
theorem get_volunteers_substr_counterexample :
    get_volunteers [vEx] (some "c_o") none none none 100 = [vEx] ∧
    substrContains vEx.skills "c_o" = false ∧
    (List.filter (volunteerMatchesSubstr (some "c_o") none none none)
      [vEx]).take 100 = [] := by
  decide

/-- Claim C1 amended: for every store state and every combination of the
optional filters and a limit, `GET /api/volunteers` returns exactly the
rows matching every present filter — textual filters with the SQL
`ILIKE '%filter%'` pattern semantics (case-insensitive, `%` and `_` in
the filter value acting as wildcards since the raw parameter is
interpolated unescaped), availability by exact equality, absent or
empty-valued filters imposing no constraint — in store order, capped at
`limit` (signature default 100); an empty match set is returned as an
empty list with success, not an error; and for filter values free of
`LIKE` metacharacters this is exactly the case-insensitive substring
containment the claim originally stated. -/
theorem get_volunteers_filter_semantics (store : List Volunteer)
    (skill location : Option String) (available : Option Bool)
    (language : Option String) (limit : Nat) :
    get_volunteers store skill location available language limit =
      (store.filter (volunteerMatches skill location available language)).take limit ∧
    (get_volunteers store skill location available language limit).length ≤ limit ∧
    ((∀ v ∈ store, volunteerMatches skill location available language v = false) →
      get_volunteers store skill location available language limit = []) ∧
    get_volunteers_nolimit store skill location available language =
      get_volunteers store skill location available language 100 ∧
    (wildcardFree skill = true → wildcardFree location = true →
      wildcardFree language = true →
      get_volunteers store skill location available language limit =
        (store.filter
          (volunteerMatchesSubstr skill location available language)).take limit) := by
  have hmain : get_volunteers store skill location available language limit =
      (store.filter (volunteerMatches skill location available language)).take limit := by
    unfold get_volunteers runSelect
    simp only [conds_all_eq]
  refine ⟨hmain, ?_, ?_, rfl, ?_⟩
  · rw [hmain]; exact List.length_take_le limit _
  · intro h
    rw [hmain]
    have : store.filter (volunteerMatches skill location available language) = [] :=
      List.filter_eq_nil_iff.mpr (fun v hv => by simp [h v hv])
    rw [this, List.take_nil]
  · intro h1 h2 h3
    rw [hmain]
    have : store.filter (volunteerMatches skill location available language) =
        store.filter (volunteerMatchesSubstr skill location available language) :=
      List.filter_congr (fun v _ =>
        volunteerMatches_noWild skill location available language v h1 h2 h3)
    rw [this]

/-- Witness for the amended C1 at concrete inputs: a wildcard-free
case-insensitive skill match selects exactly the matching row (and, via
the wildcard-free conjunct, agrees with substring filtering), and a skill
matching nothing yields the empty list. -/
theorem get_volunteers_filter_semantics_witness :
    get_volunteers [vEx, vEx2] (some "COOK") none none none 100 = [vEx] ∧
    get_volunteers [vEx, vEx2] (some "COOK") none none none 100 =
      (List.filter (volunteerMatchesSubstr (some "COOK") none none none)
        [vEx, vEx2]).take 100 ∧
    get_volunteers [vEx, vEx2] (some "gardening") none none none 7 = [] := by
  refine ⟨?_, ?_, ?_⟩
  · rw [(get_volunteers_filter_semantics [vEx, vEx2] (some "COOK") none none
      none 100).1]
    decide
  · exact (get_volunteers_filter_semantics [vEx, vEx2] (some "COOK") none none
      none 100).2.2.2.2 (by decide) (by decide) (by decide)
  · exact (get_volunteers_filter_semantics [vEx, vEx2] (some "gardening") none
      none none 7).2.2.1 (by decide)

/-- A field the handler drops (absent or null) writes nothing to a
`NOT NULL` column. -/
theorem PatchField.apply_of_not_set {α : Type} (q : PatchField α) (a : α)
    (h : q.isSet = false) : q.apply a = a := by
  cases q <;> simp_all [isSet, apply]

/-- A field the handler drops (absent or null) writes nothing to a
nullable column. -/
theorem PatchField.applyOpt_of_not_set {α : Type} (q : PatchField α)
    (a : Option α) (h : q.isSet = false) : q.applyOpt a = a := by
  cases q <;> simp_all [isSet, applyOpt]

/-- The dynamic update never turns a non-null stored value into null. -/
theorem PatchField.applyOpt_some_of_some {α : Type} (q : PatchField α)
    (a : Option α) (h : a.isSome = true) : (q.applyOpt a).isSome = true := by
  cases q <;> simp_all [applyOpt]

/-- The update statement leaves ids untouched. -/
theorem applyPatch_id (p : VolunteerUpdate) (now : Nat) (v : Volunteer) :
    (applyPatch p now v).id = v.id := rfl

/-- Rewriting every matching row with an id-preserving function commutes
with finding the first matching row: the `RETURNING *` row of the
`UPDATE ... WHERE id = vid` is the rewrite of the row the existence check
found. -/
theorem find?_map_ite (store : List Volunteer) (vid : Nat)
    (f : Volunteer → Volunteer) (hf : ∀ v, (f v).id = v.id) (old : Volunteer)
    (hold : store.find? (fun v => v.id == vid) = some old) :
    (store.map (fun v => if v.id == vid then f v else v)).find?
      (fun v => v.id == vid) = some (f old) := by
  induction store with
  | nil => simp at hold
  | cons a t ih =>
    by_cases ha : a.id = vid
    · have hba : (fun v : Volunteer => v.id == vid) a = true := by simp [ha]
      rw [@List.find?_cons_of_pos _ (fun v : Volunteer => v.id == vid) a t hba]
        at hold
      obtain rfl : a = old := by injection hold
      have hfa : (fun v : Volunteer => v.id == vid) (f a) = true := by
        simp [hf a, ha]
      simp only [List.map_cons]
      rw [if_pos (show (a.id == vid) = true by simp [ha])]
      exact @List.find?_cons_of_pos _ (fun v : Volunteer => v.id == vid) (f a)
        _ hfa
    · have hba : ¬ (fun v : Volunteer => v.id == vid) a = true := by simp [ha]
      rw [@List.find?_cons_of_neg _ (fun v : Volunteer => v.id == vid) a t hba]
        at hold
      simp only [List.map_cons]
      rw [if_neg (show ¬ (a.id == vid) = true by simp [ha])]
      rw [@List.find?_cons_of_neg _ (fun v : Volunteer => v.id == vid) a _ hba]
      exact ih hold

/-- Characterization of a successful `PUT`: with the id present and a
nonempty field set, the handler rewrites exactly the matching rows and
returns the rewritten row. -/
theorem update_volunteer_ok (store : List Volunteer) (vid : Nat)
    (p : VolunteerUpdate) (now : Nat) (old : Volunteer)
    (hold : store.find? (fun v => v.id == vid) = some old)
    (hp : hasUpdateFields p = true) :
    update_volunteer store vid p now =
      ⟨Except.ok (applyPatch p now old),
       store.map (fun v => if v.id == vid then applyPatch p now v else v)⟩ := by
  have hfind := find?_map_ite store vid (applyPatch p now) (fun v => rfl) old hold
  unfold update_volunteer
  rw [hold, hp]
  simp only [Option.isNone_some, Bool.not_true, Bool.false_eq_true, if_false]
  rw [hfind]

/-- Characterization of a successful availability `PATCH`. -/
theorem availability_ok (store : List Volunteer) (vid : Nat) (avail : Bool)
    (now : Nat) (old : Volunteer)
    (hold : store.find? (fun v => v.id == vid) = some old) :
    update_volunteer_availability store vid avail now =
      ⟨Except.ok (setAvail avail now old),
       store.map (fun v => if v.id == vid then setAvail avail now v else v)⟩ := by
  have hfind := find?_map_ite store vid (setAvail avail now)
    (fun v => rfl) old hold
  unfold update_volunteer_availability
  simp only [hfind]

/-- Claim C2: for every existing volunteer record and every valid
non-empty partial update applied to it via `PUT /api/volunteers/<id>`,
every field absent from the effective patch keeps its pre-update value,
and — the store clock having advanced past the stored timestamp —
`updated_at` strictly increases. -/
theorem update_volunteer_frame (store : List Volunteer) (vid : Nat)
    (p : VolunteerUpdate) (now : Nat) (old : Volunteer)
    (hold : store.find? (fun v => v.id == vid) = some old)
    (hp : hasUpdateFields p = true)
    (hnow : old.updated_at < now) :
    ∃ v2, (update_volunteer store vid p now).resp = Except.ok v2 ∧
      (p.name.isSet = false → v2.name = old.name) ∧
      (p.age.isSet = false → v2.age = old.age) ∧
      (p.location.isSet = false → v2.location = old.location) ∧
      (p.phone.isSet = false → v2.phone = old.phone) ∧
      (p.email.isSet = false → v2.email = old.email) ∧
      (p.skills.isSet = false → v2.skills = old.skills) ∧
      (p.available.isSet = false → v2.available = old.available) ∧
      (p.years_experience.isSet = false →
        v2.years_experience = old.years_experience) ∧
      (p.languages.isSet = false → v2.languages = old.languages) ∧
      (p.transportation.isSet = false →
        v2.transportation = old.transportation) ∧
      (p.background_check.isSet = false →
        v2.background_check = old.background_check) ∧
      (p.emergency_contact.isSet = false →
        v2.emergency_contact = old.emergency_contact) ∧
      (p.notes.isSet = false → v2.notes = old.notes) ∧
      old.updated_at < v2.updated_at := by
  refine ⟨applyPatch p now old, ?_, ?_, ?_, ?_, ?_, ?_, ?_, ?_, ?_, ?_, ?_,
    ?_, ?_, ?_, hnow⟩
  · rw [update_volunteer_ok store vid p now old hold hp]
  · exact fun h => PatchField.apply_of_not_set p.name old.name h
  · exact fun h => PatchField.apply_of_not_set p.age old.age h
  · exact fun h => PatchField.apply_of_not_set p.location old.location h
  · exact fun h => PatchField.applyOpt_of_not_set p.phone old.phone h
  · exact fun h => PatchField.applyOpt_of_not_set p.email old.email h
  · exact fun h => PatchField.apply_of_not_set p.skills old.skills h
  · exact fun h => PatchField.apply_of_not_set p.available old.available h
  · exact fun h =>
      PatchField.apply_of_not_set p.years_experience old.years_experience h
  · exact fun h => PatchField.applyOpt_of_not_set p.languages old.languages h
  · exact fun h =>
      PatchField.applyOpt_of_not_set p.transportation old.transportation h
  · exact fun h =>
      PatchField.apply_of_not_set p.background_check old.background_check h
  · exact fun h =>
      PatchField.applyOpt_of_not_set p.emergency_contact old.emergency_contact h
  · exact fun h => PatchField.applyOpt_of_not_set p.notes old.notes h

/-- Witness for C2: flipping only availability on the stored example row
leaves its name untouched and advances `updated_at`. -/
theorem update_volunteer_frame_witness :
    ∃ v2, (update_volunteer [vEx] 1 pEx 10).resp = Except.ok v2 ∧
      v2.name = vEx.name ∧ vEx.updated_at < v2.updated_at := by
  obtain ⟨v2, hresp, hname, -, -, -, -, -, -, -, -, -, -, -, -, hupd⟩ :=
    update_volunteer_frame [vEx] 1 pEx 10 vEx (by decide) (by decide)
      (by decide)
  exact ⟨v2, hresp, hname (by decide), hupd⟩

/-- Claim C3: `PUT /api/volunteers/<id>` fails with 404 when no row has
the id, fails with 400 when the id exists but the effective field set is
empty, and otherwise succeeds (HTTP 200) returning the updated record. -/
theorem update_volunteer_status (store : List Volunteer) (vid : Nat)
    (p : VolunteerUpdate) (now : Nat) :
    (store.find? (fun v => v.id == vid) = none →
      (update_volunteer store vid p now).resp = Except.error 404) ∧
    (∀ old, store.find? (fun v => v.id == vid) = some old →
      hasUpdateFields p = false →
      (update_volunteer store vid p now).resp = Except.error 400) ∧
    (∀ old, store.find? (fun v => v.id == vid) = some old →
      hasUpdateFields p = true →
      (update_volunteer store vid p now).resp =
        Except.ok (applyPatch p now old)) := by
  refine ⟨?_, ?_, ?_⟩
  · intro h
    unfold update_volunteer
    rw [h]
    rfl
  · intro old h hp
    unfold update_volunteer
    rw [h, hp]
    rfl
  · intro old h hp
    rw [update_volunteer_ok store vid p now old h hp]

/-- Witness for C3: all three statuses at concrete inputs. -/
theorem update_volunteer_status_witness :
    (update_volunteer [vEx] 99 pEx 10).resp = Except.error 404 ∧
    (update_volunteer [vEx] 1 emptyPatch 10).resp = Except.error 400 ∧
    (update_volunteer [vEx] 1 pEx 10).resp =
      Except.ok (applyPatch pEx 10 vEx) :=
  ⟨(update_volunteer_status [vEx] 99 pEx 10).1 (by decide),
   (update_volunteer_status [vEx] 1 emptyPatch 10).2.1 vEx (by decide)
     (by decide),
   (update_volunteer_status [vEx] 1 pEx 10).2.2 vEx (by decide) (by decide)⟩

/-- Claim C4: creating a volunteer and reading back the returned id yields
the very record creation returned, field for field, provided the
store-assigned id is fresh (the primary-key sequence guarantees this). -/
theorem create_then_get (store : List Volunteer) (c : VolunteerCreate)
    (newId now : Nat) (hfresh : ∀ v ∈ store, v.id ≠ newId) :
    ∃ v, (create_volunteer store c newId now).resp = Except.ok v ∧
      v = rowOfCreate c newId now ∧
      get_volunteer (create_volunteer store c newId now).store newId =
        Except.ok v := by
  refine ⟨rowOfCreate c newId now, rfl, rfl, ?_⟩
  have h1 : store.find? (fun v => v.id == newId) = none :=
    List.find?_eq_none.mpr (fun v hv => by simp [hfresh v hv])
  unfold get_volunteer create_volunteer
  rw [List.find?_append, h1]
  simp [List.find?, rowOfCreate]

/-- Witness for C4 on a store already holding a row. -/
theorem create_then_get_witness :
    ∃ v, (create_volunteer [vEx] cEx 2 10).resp = Except.ok v ∧
      v = rowOfCreate cEx 2 10 ∧
      get_volunteer (create_volunteer [vEx] cEx 2 10).store 2 =
        Except.ok v :=
  create_then_get [vEx] cEx 2 10 (by decide)

/-- Claim C5: deleting an existing id returns the deleted record, leaves
exactly the other rows in the store (so a subsequent read of the id
yields 404), and deleting a missing id fails with 404. -/
theorem delete_volunteer_correct (store : List Volunteer) (vid : Nat) :
    (∀ old, store.find? (fun v => v.id == vid) = some old →
      (delete_volunteer store vid).resp = Except.ok old ∧
      (∀ w, w ∈ (delete_volunteer store vid).store ↔
        w ∈ store ∧ w.id ≠ vid) ∧
      get_volunteer (delete_volunteer store vid).store vid =
        Except.error 404) ∧
    (store.find? (fun v => v.id == vid) = none →
      (delete_volunteer store vid).resp = Except.error 404) := by
  constructor
  · intro old hold
    have heq : delete_volunteer store vid =
        ⟨Except.ok old, store.filter (fun w => !(w.id == vid))⟩ := by
      unfold delete_volunteer
      rw [hold]
    rw [heq]
    refine ⟨rfl, ?_, ?_⟩
    · intro w
      simp [List.mem_filter]
    · unfold get_volunteer
      have hnone : (store.filter (fun w => !(w.id == vid))).find?
          (fun v => v.id == vid) = none := by
        refine List.find?_eq_none.mpr (fun w hw => ?_)
        have h2 := (List.mem_filter.mp hw).2
        simp at h2 ⊢
        exact h2
      rw [hnone]
  · intro h
    unfold delete_volunteer
    rw [h]

/-- Witness for C5: deleting the example row and re-reading it, and
deleting a missing id. -/
theorem delete_volunteer_correct_witness :
    (delete_volunteer [vEx, vEx2] 1).resp = Except.ok vEx ∧
    get_volunteer (delete_volunteer [vEx, vEx2] 1).store 1 =
      Except.error 404 ∧
    (delete_volunteer [vEx] 99).resp = Except.error 404 := by
  obtain ⟨h1, -, h3⟩ :=
    (delete_volunteer_correct [vEx, vEx2] 1).1 vEx (by decide)
  exact ⟨h1, h3, (delete_volunteer_correct [vEx] 99).2 (by decide)⟩

/-- Claim C6: on an id with no row, read, update and delete all answer
404 and leave the store exactly as it was (the read performs no write at
all, so only its response is modelled). -/
theorem notfound_no_side_effect (store : List Volunteer) (vid : Nat)
    (p : VolunteerUpdate) (now : Nat)
    (h : store.find? (fun v => v.id == vid) = none) :
    get_volunteer store vid = Except.error 404 ∧
    (update_volunteer store vid p now).resp = Except.error 404 ∧
    (update_volunteer store vid p now).store = store ∧
    (delete_volunteer store vid).resp = Except.error 404 ∧
    (delete_volunteer store vid).store = store := by
  refine ⟨?_, ?_, ?_, ?_, ?_⟩
  · unfold get_volunteer
    rw [h]
  · unfold update_volunteer
    rw [h]
    rfl
  · unfold update_volunteer
    rw [h]
    rfl
  · unfold delete_volunteer
    rw [h]
  · unfold delete_volunteer
    rw [h]

/-- Witness for C6 at a concrete missing id. -/
theorem notfound_no_side_effect_witness :
    get_volunteer [vEx] 99 = Except.error 404 ∧
    (update_volunteer [vEx] 99 pEx 10).resp = Except.error 404 ∧
    (update_volunteer [vEx] 99 pEx 10).store = [vEx] ∧
    (delete_volunteer [vEx] 99).resp = Except.error 404 ∧
    (delete_volunteer [vEx] 99).store = [vEx] :=
  notfound_no_side_effect [vEx] 99 pEx 10 (by decide)

/-- Claim C7: every successful mutation (full update, availability patch,
delete) preserves ids and `created_at` on all rows, touches no row other
than the addressed one, and stamps `updated_at` with the current time on
the row it mutates. -/
theorem mutation_invariants (store : List Volunteer) (vid : Nat)
    (p : VolunteerUpdate) (avail : Bool) (now : Nat) (old : Volunteer)
    (hold : store.find? (fun v => v.id == vid) = some old)
    (hp : hasUpdateFields p = true) :
    ((update_volunteer store vid p now).resp =
        Except.ok (applyPatch p now old) ∧
      (applyPatch p now old).id = old.id ∧
      (applyPatch p now old).created_at = old.created_at ∧
      (applyPatch p now old).updated_at = now ∧
      (∀ w ∈ (update_volunteer store vid p now).store, ∃ v ∈ store,
        w.id = v.id ∧ w.created_at = v.created_at ∧
        (v.id = vid → w.updated_at = now) ∧ (v.id ≠ vid → w = v))) ∧
    ((update_volunteer_availability store vid avail now).resp =
        Except.ok (setAvail avail now old) ∧
      (setAvail avail now old).id = old.id ∧
      (setAvail avail now old).created_at = old.created_at ∧
      (setAvail avail now old).updated_at = now ∧
      (∀ w ∈ (update_volunteer_availability store vid avail now).store,
        ∃ v ∈ store, w.id = v.id ∧ w.created_at = v.created_at ∧
          (v.id = vid → w.updated_at = now ∧ w.available = avail) ∧
          (v.id ≠ vid → w = v))) ∧
    ((delete_volunteer store vid).resp = Except.ok old ∧
      ∀ w ∈ (delete_volunteer store vid).store, w ∈ store) := by
  refine ⟨?_, ?_, ?_⟩
  · rw [update_volunteer_ok store vid p now old hold hp]
    refine ⟨rfl, rfl, rfl, rfl, ?_⟩
    intro w hw
    obtain ⟨v, hv, rfl⟩ := List.mem_map.mp hw
    refine ⟨v, hv, ?_⟩
    by_cases hid : v.id = vid
    · rw [if_pos (show (v.id == vid) = true by simp [hid])]
      exact ⟨rfl, rfl, fun _ => rfl, fun hne => absurd hid hne⟩
    · rw [if_neg (show ¬ (v.id == vid) = true by simp [hid])]
      exact ⟨rfl, rfl, fun hvp => absurd hvp hid, fun _ => rfl⟩
  · rw [availability_ok store vid avail now old hold]
    refine ⟨rfl, rfl, rfl, rfl, ?_⟩
    intro w hw
    obtain ⟨v, hv, rfl⟩ := List.mem_map.mp hw
    refine ⟨v, hv, ?_⟩
    by_cases hid : v.id = vid
    · rw [if_pos (show (v.id == vid) = true by simp [hid])]
      exact ⟨rfl, rfl, fun _ => ⟨rfl, rfl⟩, fun hne => absurd hid hne⟩
    · rw [if_neg (show ¬ (v.id == vid) = true by simp [hid])]
      exact ⟨rfl, rfl, fun hvp => absurd hvp hid, fun _ => rfl⟩
  · have heq : delete_volunteer store vid =
        ⟨Except.ok old, store.filter (fun w => !(w.id == vid))⟩ := by
      unfold delete_volunteer
      rw [hold]
    rw [heq]
    exact ⟨rfl, fun w hw => (List.mem_filter.mp hw).1⟩

/-- Witness for C7 at concrete inputs: selected conjuncts of the three
parts, instantiated on the example store. -/
theorem mutation_invariants_witness :
    (update_volunteer [vEx] 1 pEx 10).resp =
      Except.ok (applyPatch pEx 10 vEx) ∧
    (applyPatch pEx 10 vEx).created_at = vEx.created_at ∧
    (update_volunteer_availability [vEx] 1 false 10).resp =
      Except.ok (setAvail false 10 vEx) ∧
    (setAvail false 10 vEx).updated_at = 10 ∧
    (delete_volunteer [vEx] 1).resp = Except.ok vEx := by
  obtain ⟨⟨h1, -, h2, -, -⟩, ⟨h3, -, -, h4, -⟩, h5, -⟩ :=
    mutation_invariants [vEx] 1 pEx false 10 vEx (by decide) (by decide)
  exact ⟨h1, h2, h3, h4, h5⟩

/-- Dropping a null field does not change whether the handler keeps it. -/
theorem PatchField.dropNull_isSet {α : Type} (q : PatchField α) :
    q.dropNull.isSet = q.isSet := by
  cases q <;> rfl

/-- Dropping a null field does not change what it writes to a `NOT NULL`
column. -/
theorem PatchField.dropNull_apply {α : Type} (q : PatchField α) (a : α) :
    q.dropNull.apply a = q.apply a := by
  cases q <;> rfl

/-- Dropping a null field does not change what it writes to a nullable
column. -/
theorem PatchField.dropNull_applyOpt {α : Type} (q : PatchField α)
    (a : Option α) : q.dropNull.applyOpt a = q.applyOpt a := by
  cases q <;> rfl

/-- Null-collapsing preserves the nonemptiness test of the field loop. -/
theorem dropNulls_hasUpdateFields (p : VolunteerUpdate) :
    hasUpdateFields (dropNulls p) = hasUpdateFields p := by
  simp [hasUpdateFields, dropNulls, PatchField.dropNull_isSet]

/-- Null-collapsing preserves the row rewrite of the dynamic update. -/
theorem dropNulls_applyPatch (p : VolunteerUpdate) (now : Nat)
    (v : Volunteer) : applyPatch (dropNulls p) now v = applyPatch p now v := by
  simp [applyPatch, dropNulls, PatchField.dropNull_apply,
    PatchField.dropNull_applyOpt]

/-- Claim C10: in `PUT /api/volunteers/<id>` a field supplied as JSON
null behaves exactly like an absent field — the whole handler result is
unchanged by collapsing nulls to absences, an existing id with no
field supplied non-null is rejected with 400, and on success no nullable
stored value is ever cleared to null. -/
theorem update_volunteer_null_fields (store : List Volunteer) (vid : Nat)
    (p : VolunteerUpdate) (now : Nat) :
    update_volunteer store vid p now =
      update_volunteer store vid (dropNulls p) now ∧
    (∀ old, store.find? (fun v => v.id == vid) = some old →
      hasUpdateFields p = false →
      (update_volunteer store vid p now).resp = Except.error 400) ∧
    (∀ old, store.find? (fun v => v.id == vid) = some old →
      hasUpdateFields p = true →
      (update_volunteer store vid p now).resp =
        Except.ok (applyPatch p now old) ∧
      (old.phone.isSome → (applyPatch p now old).phone.isSome) ∧
      (old.email.isSome → (applyPatch p now old).email.isSome) ∧
      (old.languages.isSome → (applyPatch p now old).languages.isSome) ∧
      (old.transportation.isSome →
        (applyPatch p now old).transportation.isSome) ∧
      (old.emergency_contact.isSome →
        (applyPatch p now old).emergency_contact.isSome) ∧
      (old.notes.isSome → (applyPatch p now old).notes.isSome)) := by
  refine ⟨?_, ?_, ?_⟩
  · unfold update_volunteer
    rw [dropNulls_hasUpdateFields]
    simp only [dropNulls_applyPatch]
  · intro old h hpf
    unfold update_volunteer
    rw [h, hpf]
    rfl
  · intro old h hp
    rw [update_volunteer_ok store vid p now old h hp]
    exact ⟨rfl,
      fun hs => PatchField.applyOpt_some_of_some p.phone old.phone hs,
      fun hs => PatchField.applyOpt_some_of_some p.email old.email hs,
      fun hs => PatchField.applyOpt_some_of_some p.languages old.languages hs,
      fun hs => PatchField.applyOpt_some_of_some p.transportation
        old.transportation hs,
      fun hs => PatchField.applyOpt_some_of_some p.emergency_contact
        old.emergency_contact hs,
      fun hs => PatchField.applyOpt_some_of_some p.notes old.notes hs⟩

/-- Witness for C10: the all-null example patch is indistinguishable from
the empty patch and is rejected with 400 on an existing id. -/
theorem update_volunteer_null_fields_witness :
    update_volunteer [vEx] 1 pNull 10 =
      update_volunteer [vEx] 1 (dropNulls pNull) 10 ∧
    (update_volunteer [vEx] 1 pNull 10).resp = Except.error 400 :=
  ⟨(update_volunteer_null_fields [vEx] 1 pNull 10).1,
   (update_volunteer_null_fields [vEx] 1 pNull 10).2.1 vEx (by decide)
     (by decide)⟩

/-- Counterexample to claim C8 as stated: when a SQL statement raises
after the connection is acquired, the `except Exception` clause of
`get_volunteers` re-raises a 500 without `conn.close()`, so that request
path ends with the acquired connection unreleased. -/
theorem get_volunteers_conn_leak :
    (get_volunteers_conn true false).acquired = true ∧
    (get_volunteers_conn true false).released = false := by
  decide

/-- Claim C8 amended: the connection acquired by `get_volunteers` is
released before the handler returns on every path on which the SQL
statements succeed; when a statement raises after acquisition the handler
returns without releasing it; and when the connect itself fails no
connection was acquired at all. -/
theorem get_volunteers_conn_release (connectOk queryOk : Bool) :
    ((get_volunteers_conn connectOk queryOk).acquired = true →
      queryOk = true →
      (get_volunteers_conn connectOk queryOk).released = true) ∧
    ((get_volunteers_conn connectOk queryOk).acquired = true →
      queryOk = false →
      (get_volunteers_conn connectOk queryOk).released = false) ∧
    (connectOk = false →
      (get_volunteers_conn connectOk queryOk).acquired = false) := by
  cases connectOk <;> cases queryOk <;> refine ⟨?_, ?_, ?_⟩ <;>
    intro h1 <;> first
      | rfl
      | (intro h2; first | rfl | simp_all [get_volunteers_conn])
      | simp_all [get_volunteers_conn]

/-- Witness for the amended C8: the straight-line path releases the
connection, the raising path does not. -/
theorem get_volunteers_conn_release_witness :
    (get_volunteers_conn true true).released = true ∧
    (get_volunteers_conn true false).released = false :=
  ⟨(get_volunteers_conn_release true true).1 rfl rfl,
   (get_volunteers_conn_release true false).2.1 rfl rfl⟩

/-- Counterexample to claim C9 as stated: in `envCounter` (no credentials
file, `GOOGLE_CLIENT_ID`, `GOOGLE_CLIENT_SECRET` and
`GOOGLE_REFRESH_TOKEN` set, `GOOGLE_PROJECT_ID` unset, refresh round trip
working) `authenticate` returns `False` even though the refresh-token
exchange strategy has everything it needs and would succeed — failure is
not "exactly when all strategies are exhausted". -/
theorem authenticate_counterexample :
    (authenticate envCounter).1 = false ∧
    refreshExchangeSucceeds envCounter = true := by
  decide

/-- Claim C9 amended: `authenticate` first resolves the OAuth client
configuration — credentials file, else environment variables — and fails
outright when neither is available, without attempting the refresh-token
exchange; with client configuration available, the credentials come from
the first applicable of cached token file, refresh of an expired cached
token, env refresh-token exchange, and the call returns `False` exactly
when that resolution yields nothing. -/
theorem authenticate_chain (e : AuthEnv) :
    (authenticate e).1 = (resolveCredChain e).isSome ∧
    (authenticate e).2 = resolveCredChain e := by
  obtain ⟨cf, ei, es, ep, tf, ert, rok⟩ := e
  rcases tf with _ | ts
  · cases cf <;> cases ei <;> cases es <;> cases ep <;> cases ert <;>
      cases rok <;> exact ⟨rfl, rfl⟩
  · cases ts <;> cases cf <;> cases ei <;> cases es <;> cases ep <;>
      cases ert <;> cases rok <;> exact ⟨rfl, rfl⟩

end VolunteerApi
